import Mathlib

/-!
Shallow embedding of `src/main.py`, the IMDb Rating Category Classification
API (FastAPI service).

The program state is two module-level globals, `_model` and `_metadata`
(lines 60-61), modelled by `GState`.  The outside world (filesystem and the
deserializers `joblib.load` / `json.load`) is modelled by `Env`: whether the
two files exist and what deserializing each of them yields.  Machine floats
of the source are modelled by `ℚ`.  A Python exception is a value of
`PyErr`; `FileNotFoundError` is kept distinct from other exceptions because
`predict` catches it separately (line 122).

Stateful functions take `Env` and `GState` and return the updated `GState`
together with their result; an update made to a global before an exception
is raised persists in the returned state, exactly as in Python.
-/

/-- `class MovieFeatures` (lines 35-42): features for a single movie.
All six fields are required. -/
structure MovieFeatures where
  startYear : ℚ
  runtimeMinutes : ℚ
  numVotes : ℚ
  averageRating : ℚ
  runtime_category : String
  popularity : String
deriving Repr, DecidableEq

/-- The value of the metadata document's `metrics` key: a mapping of
metric name to scalar value. -/
abbrev Metrics := List (String × ℚ)

/-- The parsed metadata JSON document (a Python dict).  The two keys the
service reads are modelled explicitly (`none` = key absent); `otherKeys`
records whether the dict has any further keys, which only matters for
Python truthiness of the dict. -/
structure Metadata where
  model_name : Option String
  metrics : Option Metrics
  otherKeys : Bool
deriving Repr, DecidableEq

/-- Python truthiness of the metadata dict: a dict is truthy iff nonempty. -/
def Metadata.truthy (md : Metadata) : Bool :=
  md.model_name.isSome || md.metrics.isSome || md.otherKeys

/-- `metadata.get('model_name', 'unknown')` (line 154). -/
def Metadata.getName (md : Metadata) : String :=
  md.model_name.getD "unknown"

/-- `metadata.get('metrics', {})` (line 155). -/
def Metadata.getMetrics (md : Metadata) : Metrics :=
  md.metrics.getD []

/-- The deserialized artifact (the opaque scikit-learn-style model object).
`predictRow` gives `model.predict`'s label for one input row — `predict`
on a batch returns one label per row, in row order.  `hasProba` is
`hasattr(model, "predict_proba")`; when true, `probaRow` gives the
probability distribution over labels that `predict_proba` returns for one
row.  `exc mvs = some e` means the inference step (DataFrame conversion,
`predict`, `predict_proba`) raises exception `e` on that batch. -/
structure Model where
  predictRow : MovieFeatures → String
  hasProba : Bool
  probaRow : MovieFeatures → List ℚ
  exc : List MovieFeatures → Option String

/-- A raised Python exception, distinguishing `FileNotFoundError` (caught
separately at line 122) from every other exception class. -/
inductive PyErr where
  | fileNotFound (msg : String)
  | exc (msg : String)
deriving Repr, DecidableEq

/-- `str(e)` on an exception: its message. -/
def PyErr.str : PyErr → String
  | .fileNotFound m => m
  | .exc m => m

/-- The environment of one call: existence of the two files and the outcome
of deserializing each.  `modelLoad` is what `joblib.load(MODEL_PATH)` would
yield (`.error` = it raises); `metadataParse` is what `json.load` on the
metadata file would yield — `.ok none` models a file containing JSON
`null`, which `json.load` maps to Python `None`.  `modelPath` is the
resolved `MODEL_PATH` string. -/
structure Env where
  modelExists : Bool
  modelLoad : Except String Model
  metadataExists : Bool
  metadataParse : Except String (Option Metadata)
  modelPath : String

/-- The module-level globals `_model` and `_metadata` (lines 60-61), both
initially `None`.  (`_metadata` is `none` both before any parse and after
parsing JSON `null` — Python cannot distinguish these either.) -/
structure GState where
  model : Option Model
  metadata : Option Metadata

/-- Lines 71-75 of `load_model`: if `_metadata is None and
METADATA_PATH.exists()`, parse the metadata file (assigning the global on
success); then `return _model, _metadata`. -/
def loadMetaPhase (env : Env) (s : GState) (m : Model) :
    GState × Except PyErr (Model × Option Metadata) :=
  if s.metadata.isNone && env.metadataExists then
    match env.metadataParse with
    | .error e => (s, .error (.exc e))
    | .ok v => ({ s with metadata := v }, .ok (m, v))
  else (s, .ok (m, s.metadata))

/-- `load_model` (lines 64-75): if `_model is None`, check the model file
exists (else raise `FileNotFoundError`) and deserialize it into the global;
then run the metadata phase. -/
def load_model (env : Env) (s : GState) :
    GState × Except PyErr (Model × Option Metadata) :=
  match s.model with
  | some m => loadMetaPhase env s m
  | none =>
    if env.modelExists then
      match env.modelLoad with
      | .error e => (s, .error (.exc e))
      | .ok m => loadMetaPhase env { s with model := some m } m
    else (s, .error (.fileNotFound ("Model not found at " ++ env.modelPath)))

/-- `class PredictionResult` (lines 49-51). -/
structure PredictionResult where
  rating_category : String
  confidence : Option ℚ
deriving Repr, DecidableEq

/-- `class PredictResponse` (lines 54-57). -/
structure PredictResponse where
  predictions : List PredictionResult
  model_name : String
  model_metrics : Metrics
deriving Repr, DecidableEq

/-- The HTTP outcome of an endpoint returning a `PredictResponse`: a 200
body, or an `HTTPException(status_code, detail)`. -/
inductive HTTPResp where
  | ok (resp : PredictResponse)
  | err (status : Nat) (detail : String)
deriving Repr, DecidableEq

/-- The HTTP status of an outcome. -/
def HTTPResp.status : HTTPResp → Nat
  | .ok _ => 200
  | .err s _ => s

/-- `proba.max(axis=1)` applied to one row (line 143): the numpy maximum of
the row's entries.  (numpy raises on an empty row; a real `predict_proba`
matrix has at least one class column, so the empty case — given junk value
`0` here — is unreachable.) -/
def listMax : List ℚ → ℚ
  | [] => 0
  | a :: t => t.foldl max a

/-- The response-building loop (lines 146-152): `for i, pred in
enumerate(predictions)`, with `confidence = probs[i] if probs else None`.
`probs` is falsy when it is `None` or the empty list.  `i` is the
enumeration index threaded through the recursion. -/
def buildResults (probs : Option (List ℚ)) : Nat → List String → List PredictionResult
  | _, [] => []
  | i, p :: rest =>
    { rating_category := p
      confidence :=
        match probs with
        | some ps => if ps.isEmpty then none else some (ps.getD i 0)
        | none => none } :: buildResults probs (i + 1) rest

/-- Line 154: `metadata.get('model_name', 'unknown') if metadata else
'unknown'`.  `metadata` is falsy when `None` or an empty dict. -/
def responseModelName (metadata : Option Metadata) : String :=
  match metadata with
  | some md => if md.truthy then md.getName else "unknown"
  | none => "unknown"

/-- Line 155: `metadata.get('metrics', {}) if metadata else {}`. -/
def responseModelMetrics (metadata : Option Metadata) : Metrics :=
  match metadata with
  | some md => if md.truthy then md.getMetrics else []
  | none => []

/-- `POST /predict` (lines 117-163).  `load_model` runs first; a
`FileNotFoundError` becomes 503, any other load exception 500.  Only then
is the empty-list check made (line 127, status 400).  The inference block
either raises (caught as status-500 "Inference error") or produces one
label — and, when `predict_proba` exists, one row-maximum probability —
per input record, zipped in input order. -/
def predictEndpoint (env : Env) (movies : List MovieFeatures) (s : GState) :
    GState × HTTPResp :=
  match load_model env s with
  | (s1, .error (.fileNotFound msg)) => (s1, .err 503 msg)
  | (s1, .error (.exc msg)) => (s1, .err 500 ("Error loading model: " ++ msg))
  | (s1, .ok (model, metadata)) =>
    if movies.isEmpty then
      (s1, .err 400 "\x27movies\x27 list cannot be empty")
    else
      match model.exc movies with
      | some e => (s1, .err 500 ("Inference error: " ++ e))
      | none =>
        let predictions := movies.map model.predictRow
        let probs : Option (List ℚ) :=
          if model.hasProba then
            some (movies.map (fun mv => listMax (model.probaRow mv)))
          else none
        (s1, .ok
          { predictions := buildResults probs 0 predictions
            model_name := responseModelName metadata
            model_metrics := responseModelMetrics metadata })

/-- The body of a `GET /model-info` response: the metadata document
verbatim, the `message: "No metadata available"` dict, or an
`HTTPException`. -/
inductive InfoResp where
  | doc (md : Metadata)
  | noMetadata
  | err (status : Nat) (detail : String)
deriving Repr, DecidableEq

/-- `GET /model-info` (lines 106-114): force a load; `if metadata:` return
it, else the no-metadata message; any load exception becomes a 500 with
`str(e)` as detail. -/
def model_info (env : Env) (s : GState) : GState × InfoResp :=
  match load_model env s with
  | (s1, .error e) => (s1, .err 500 e.str)
  | (s1, .ok (_, metadata)) =>
    match metadata with
    | some md => if md.truthy then (s1, .doc md) else (s1, .noMetadata)
    | none => (s1, .noMetadata)

/-- The body of a `GET /health` response. -/
structure HealthResp where
  status : String
  model_path : String
  model_exists : Bool
  metadata_exists : Bool
deriving Repr, DecidableEq

/-- `GET /health` (lines 91-103): report file existence without calling
`load_model`.  (The `except` fallback of lines 102-103 is unreachable:
`Path.exists` and dict construction do not raise here, so the embedding is
the `try` body.) -/
def health (env : Env) (s : GState) : GState × HealthResp :=
  (s,
    { status := if env.modelExists then "healthy" else "model_missing"
      model_path := env.modelPath
      model_exists := env.modelExists
      metadata_exists := env.metadataExists })

/-! ### Helper lemmas -/

lemma le_foldl_max (t : List ℚ) (a : ℚ) : a ≤ t.foldl max a := by
  induction t generalizing a with
  | nil => exact le_refl a
  | cons b t ih => exact le_trans (le_max_left a b) (ih (max a b))

lemma mem_le_foldl_max {x : ℚ} (t : List ℚ) (a : ℚ) (hx : x ∈ t) :
    x ≤ t.foldl max a := by
  induction t generalizing a with
  | nil => cases hx
  | cons b t ih =>
    rcases List.mem_cons.mp hx with h | h
    · subst h
      exact le_trans (le_max_right a x) (le_foldl_max t (max a x))
    · exact ih (max a b) h

lemma foldl_max_mem (t : List ℚ) (a : ℚ) :
    t.foldl max a = a ∨ t.foldl max a ∈ t := by
  induction t generalizing a with
  | nil => exact Or.inl rfl
  | cons b t ih =>
    rcases ih (max a b) with h | h
    · rcases max_choice a b with hm | hm
      · exact Or.inl (by rw [List.foldl_cons, h, hm])
      · exact Or.inr (by rw [List.foldl_cons, h, hm]; exact List.mem_cons_self b t)
    · exact Or.inr (List.mem_cons_of_mem b h)

lemma listMax_mem {l : List ℚ} (h : l ≠ []) : listMax l ∈ l := by
  match l with
  | a :: t =>
    rcases foldl_max_mem t a with h1 | h1
    · rw [listMax, h1]; exact List.mem_cons_self a t
    · rw [listMax]; exact List.mem_cons_of_mem a h1

lemma le_listMax {l : List ℚ} {x : ℚ} (hx : x ∈ l) : x ≤ listMax l := by
  match l with
  | a :: t =>
    rcases List.mem_cons.mp hx with h | h
    · subst h; exact le_foldl_max t x
    · exact mem_le_foldl_max t a h

lemma buildResults_none (i : Nat) (preds : List String) :
    buildResults none i preds
      = preds.map (fun p => { rating_category := p, confidence := none }) := by
  induction preds generalizing i with
  | nil => rfl
  | cons p rest ih => simp [buildResults, ih]

lemma buildResults_shift (a : ℚ) (ps : List ℚ) (i : Nat) (preds : List String)
    (h : i + preds.length ≤ ps.length) :
    buildResults (some (a :: ps)) (i + 1) preds = buildResults (some ps) i preds := by
  induction preds generalizing i with
  | nil => rfl
  | cons p rest ih =>
    obtain ⟨b, ps', rfl⟩ : ∃ b ps', ps = b :: ps' := by
      cases ps with
      | nil =>
        exfalso
        simp only [List.length_nil, List.length_cons, Nat.le_zero] at h
        omega
      | cons b ps' => exact ⟨b, ps', rfl⟩
    simp only [buildResults, List.isEmpty_cons, List.getD_cons_succ]
    congr 1
    exact ih (i + 1) (by simp at h ⊢; omega)

lemma buildResults_map (f : MovieFeatures → String) (g : MovieFeatures → ℚ)
    (movies : List MovieFeatures) :
    buildResults (some (movies.map g)) 0 (movies.map f)
      = movies.map
          (fun mv => { rating_category := f mv, confidence := some (g mv) }) := by
  induction movies with
  | nil => rfl
  | cons mv rest ih =>
    simp only [List.map_cons, buildResults, List.isEmpty_cons, Bool.false_eq_true,
      if_false, List.getD_cons_zero, Nat.zero_add]
    congr 1
    rw [buildResults_shift (g mv) (rest.map g) 0 (rest.map f) (by simp), ih]

lemma loadMetaPhase_ok {env : Env} {s s1 : GState} {m m1 : Model}
    {md : Option Metadata}
    (h : loadMetaPhase env s m = (s1, .ok (m1, md))) :
    m1 = m ∧ s1.model = s.model ∧ s1.metadata = md := by
  unfold loadMetaPhase at h
  split at h
  · cases hp : env.metadataParse with
    | error e => rw [hp] at h; simp at h
    | ok v =>
      rw [hp] at h
      simp only [Prod.mk.injEq, Except.ok.injEq] at h
      obtain ⟨h1, h2, h3⟩ := h
      refine ⟨h2.symm, ?_, ?_⟩
      · rw [← h1]
      · rw [← h1]; exact h3
  · simp only [Prod.mk.injEq, Except.ok.injEq] at h
    obtain ⟨h1, h2, h3⟩ := h
    refine ⟨h2.symm, ?_, ?_⟩
    · rw [← h1]
    · rw [← h1]; exact h3

lemma loadMetaPhase_parse_of_none {env : Env} {s s1 : GState} {m m1 : Model}
    {md : Option Metadata}
    (h : loadMetaPhase env s m = (s1, .ok (m1, md)))
    (hmd : md = none) (hex : env.metadataExists = true) :
    env.metadataParse = .ok none := by
  unfold loadMetaPhase at h
  split at h
  next hc =>
    cases hp : env.metadataParse with
    | error e => rw [hp] at h; simp at h
    | ok v =>
      rw [hp] at h
      simp only [Prod.mk.injEq, Except.ok.injEq] at h
      rw [h.2.2, hmd]
  next hc =>
    simp only [Prod.mk.injEq, Except.ok.injEq] at h
    obtain ⟨h1, h2, h3⟩ := h
    rw [h3, hmd, hex] at hc
    simp only [Option.isNone_none, Bool.true_and] at hc
    exact absurd trivial hc

lemma loadMetaPhase_stable {env env' : Env} {s s1 : GState} {m m1 : Model}
    {md : Option Metadata}
    (h : loadMetaPhase env s m = (s1, .ok (m1, md)))
    (hex : env'.metadataExists = env.metadataExists)
    (hparse : env'.metadataParse = env.metadataParse) :
    loadMetaPhase env' s1 m1 = (s1, .ok (m1, md)) := by
  obtain ⟨hm, hmodel, hmeta⟩ := loadMetaPhase_ok h
  cases hmd : md with
  | some d =>
    rw [hmd] at hmeta
    simp [loadMetaPhase, hmeta]
  | none =>
    rw [hmd] at hmeta
    cases hex' : env'.metadataExists with
    | false => simp [loadMetaPhase, hmeta, hex']
    | true =>
      have hparse0 : env.metadataParse = .ok none :=
        loadMetaPhase_parse_of_none h hmd (by rw [← hex, hex'])
      cases s1 with
      | mk mo me =>
        obtain rfl : me = none := hmeta
        simp [loadMetaPhase, hex', hparse, hparse0]

lemma load_model_ok_state {env : Env} {s s1 : GState} {m : Model}
    {md : Option Metadata}
    (h : load_model env s = (s1, .ok (m, md))) :
    s1.model = some m ∧ s1.metadata = md := by
  unfold load_model at h
  split at h
  next m0 heq =>
    obtain ⟨hm, hmodel, hmeta⟩ := loadMetaPhase_ok h
    exact ⟨by rw [hmodel, heq, hm], hmeta⟩
  next heq =>
    split at h
    · split at h
      next e hl => simp at h
      next m0 hl =>
        obtain ⟨hm, hmodel, hmeta⟩ := loadMetaPhase_ok h
        refine ⟨?_, hmeta⟩
        rw [hmodel, hm]
    · simp at h

lemma load_model_stable {env env' : Env} {s s1 : GState} {m : Model}
    {md : Option Metadata}
    (h : load_model env s = (s1, .ok (m, md)))
    (hex : env'.metadataExists = env.metadataExists)
    (hparse : env'.metadataParse = env.metadataParse) :
    load_model env' s1 = (s1, .ok (m, md)) := by
  obtain ⟨h1, _⟩ := load_model_ok_state h
  have hgoal : load_model env' s1 = loadMetaPhase env' s1 m := by
    unfold load_model
    rw [h1]
  rw [hgoal]
  unfold load_model at h
  split at h
  next m0 heq => exact loadMetaPhase_stable h hex hparse
  next heq =>
    split at h
    · split at h
      next e hl => simp at h
      next m0 hl => exact loadMetaPhase_stable h hex hparse
    · simp at h

lemma isEmpty_false_of_ne_nil {α : Type} {l : List α} (h : l ≠ []) :
    l.isEmpty = false := by
  cases l with
  | nil => exact absurd rfl h
  | cons a t => rfl

lemma predictEndpoint_success {env : Env} {movies : List MovieFeatures}
    {s s1 : GState} {m : Model} {md : Option Metadata}
    (hload : load_model env s = (s1, .ok (m, md)))
    (hne : movies ≠ [])
    (hexc : m.exc movies = none) :
    predictEndpoint env movies s = (s1, .ok
      { predictions := movies.map (fun mv =>
          { rating_category := m.predictRow mv
            confidence :=
              if m.hasProba then some (listMax (m.probaRow mv)) else none })
        model_name := responseModelName md
        model_metrics := responseModelMetrics md }) := by
  simp only [predictEndpoint, hload, isEmpty_false_of_ne_nil hne,
    Bool.false_eq_true, if_false, hexc]
  cases hp : m.hasProba with
  | true =>
    simp only [if_true, buildResults_map]
  | false =>
    simp only [Bool.false_eq_true, if_false, buildResults_none, List.map_map]
    rfl

lemma predictEndpoint_load_fnf {env : Env} {movies : List MovieFeatures}
    {s s1 : GState} {msg : String}
    (h : load_model env s = (s1, .error (.fileNotFound msg))) :
    predictEndpoint env movies s = (s1, .err 503 msg) := by
  simp only [predictEndpoint, h]

lemma predictEndpoint_load_exc {env : Env} {movies : List MovieFeatures}
    {s s1 : GState} {msg : String}
    (h : load_model env s = (s1, .error (.exc msg))) :
    predictEndpoint env movies s
      = (s1, .err 500 ("Error loading model: " ++ msg)) := by
  simp only [predictEndpoint, h]

lemma predictEndpoint_empty {env : Env} {s s1 : GState} {m : Model}
    {md : Option Metadata}
    (h : load_model env s = (s1, .ok (m, md))) :
    predictEndpoint env [] s
      = (s1, .err 400 "\x27movies\x27 list cannot be empty") := by
  simp only [predictEndpoint, h, List.isEmpty_nil, if_true]

lemma predictEndpoint_infer_exc {env : Env} {movies : List MovieFeatures}
    {s s1 : GState} {m : Model} {md : Option Metadata} {e : String}
    (h : load_model env s = (s1, .ok (m, md)))
    (hne : movies ≠ []) (hexc : m.exc movies = some e) :
    predictEndpoint env movies s
      = (s1, .err 500 ("Inference error: " ++ e)) := by
  simp only [predictEndpoint, h, isEmpty_false_of_ne_nil hne,
    Bool.false_eq_true, if_false, hexc]

/-! ### Concrete instances used by the witnesses and counterexamples -/

/-- The fresh process state: both globals `None`. -/
def s0 : GState := { model := none, metadata := none }

/-- A concrete feature record. -/
def mv0 : MovieFeatures :=
  { startYear := 2005, runtimeMinutes := 120, numVotes := 5000
    averageRating := 72 / 10, runtime_category := "medium"
    popularity := "high" }

/-- A concrete artifact without `predict_proba`, always predicting "Good". -/
def modelNoProba : Model :=
  { predictRow := fun _ => "Good", hasProba := false
    probaRow := fun _ => [], exc := fun _ => none }

/-- A concrete artifact with `predict_proba`. -/
def modelProba : Model :=
  { predictRow := fun _ => "Good", hasProba := true
    probaRow := fun _ => [9 / 100, 91 / 100], exc := fun _ => none }

/-- A concrete metadata document with a name and one metric. -/
def mdRf : Metadata :=
  { model_name := some "rf_v2", metrics := some [("f1", 82 / 100)]
    otherKeys := false }

/-- The parsed empty metadata document (an empty JSON dict): present on
disk and parseable, but falsy in Python. -/
def mdEmpty : Metadata :=
  { model_name := none, metrics := none, otherKeys := false }

/-! ### Environments used by the witnesses and counterexamples
(fields: modelExists, modelLoad, metadataExists, metadataParse, modelPath) -/

/-- Model file absent; no metadata file. -/
def envNoFile : Env := ⟨false, .error "x", false, .ok none, "P"⟩

/-- Model file present and loadable (no `predict_proba`); no metadata file. -/
def envOkNoMeta : Env := ⟨true, .ok modelNoProba, false, .ok none, "P"⟩

/-- Model file present and loadable (with `predict_proba`); no metadata file. -/
def envOkProba : Env := ⟨true, .ok modelProba, false, .ok none, "P"⟩

/-- Model file present and loadable; metadata file present with name and
metrics. -/
def envOkRf : Env := ⟨true, .ok modelProba, true, .ok (some mdRf), "P"⟩

/-- Model file present and loadable; metadata file present but the parsed
document is the empty dict. -/
def envOkEmptyMeta : Env := ⟨true, .ok modelNoProba, true, .ok (some mdEmpty), "P"⟩

/-- Model file present and loadable; metadata file present but its parse
raises. -/
def envBadMeta : Env := ⟨true, .ok modelNoProba, true, .error "bad json", "P"⟩

/-- Model file absent and deserializer failing. -/
def envGone : Env := ⟨false, .error "gone", false, .ok none, "P"⟩

/-- Model file absent, deserializer failing, metadata parse failing. -/
def envGoneBadMeta : Env := ⟨false, .error "gone", true, .error "bad json", "P"⟩

/-- Model file absent, deserializer failing, metadata now parseable. -/
def envGoneGoodMeta : Env := ⟨false, .error "gone", true, .ok (some mdRf), "P"⟩

/-- Model file present but `joblib.load` raises. -/
def envCorrupt : Env := ⟨true, .error "boom", false, .ok none, "P"⟩

/-- Model file absent; `joblib.load` would raise. -/
def envAbsent : Env := ⟨false, .error "boom", false, .ok none, "P"⟩

/-! ### Claims -/

/-- Claim C1 — counterexample.  The claim says an empty movies list fails
with HTTP 400 and no artifact load is attempted.  In the code `load_model`
runs first (line 121) and the emptiness check only afterwards (line 127):
with the artifact file absent, an empty-list request gets 503, not 400;
and with a loadable artifact, an empty-list request populates the cache. -/
theorem C1_counterexample :
    (predictEndpoint envNoFile [] s0).2
      = .err 503 ("Model not found at " ++ "P") ∧
    (HTTPResp.err 503 ("Model not found at " ++ "P")).status ≠ 400 ∧
    ((predictEndpoint envOkNoMeta [] s0).1).model.isSome = true :=
  ⟨rfl, by decide, rfl⟩

/-- Claim C1 (amended): an empty movies list is rejected with HTTP 400 and
the empty-list detail message — but only after `load_model` has already
been called and succeeded; the resulting state is the post-load state, so
the Artifact Cache is touched first. -/
theorem C1_empty_list_400_after_load (env : Env) (s s1 : GState) (m : Model)
    (md : Option Metadata)
    (h : load_model env s = (s1, .ok (m, md))) :
    predictEndpoint env [] s
      = (s1, .err 400 "\x27movies\x27 list cannot be empty") :=
  predictEndpoint_empty h

/-- Claim C1 witness: concrete empty-list request against a loadable
artifact, rejected with 400 in the post-load state. -/
theorem C1_witness :
    predictEndpoint envOkNoMeta [] s0
      = ({ model := some modelNoProba, metadata := none },
         .err 400 "\x27movies\x27 list cannot be empty") :=
  C1_empty_list_400_after_load envOkNoMeta s0 _ modelNoProba none rfl

/-- Claim C2: for every non-empty batch on which the artifact's predict
capability succeeds, `predict` returns exactly one `PredictionResult` per
input record, order preserved: the i-th label is the model's label for the
i-th record. -/
theorem C2_length_and_order (env : Env) (movies : List MovieFeatures)
    (s s1 : GState) (m : Model) (md : Option Metadata)
    (hload : load_model env s = (s1, .ok (m, md)))
    (hne : movies ≠ []) (hexc : m.exc movies = none) :
    ∃ resp, predictEndpoint env movies s = (s1, .ok resp) ∧
      resp.predictions.length = movies.length ∧
      resp.predictions.map PredictionResult.rating_category
        = movies.map m.predictRow := by
  refine ⟨_, predictEndpoint_success hload hne hexc, ?_, ?_⟩
  · simp
  · simp [List.map_map]

/-- Claim C2 witness: a one-record batch gives a one-record response whose
label is the model's label for the record. -/
theorem C2_witness :
    ∃ resp, predictEndpoint envOkProba [mv0] s0
      = ({ model := some modelProba, metadata := none }, .ok resp) ∧
      resp.predictions.length = [mv0].length ∧
      resp.predictions.map PredictionResult.rating_category
        = [mv0].map modelProba.predictRow :=
  C2_length_and_order envOkProba [mv0] s0 _ modelProba none rfl
    (List.cons_ne_nil mv0 []) rfl

/-- Claim C4: a second call to `load_model` after a successful load returns
the same pair in the same state, whatever the model file's existence and
the deserializer would now yield — so the cached handle is returned
unchanged and no model deserialization work is performed. -/
theorem C4_idempotent_after_success (env : Env) (s s1 : GState) (m : Model)
    (md : Option Metadata)
    (h : load_model env s = (s1, .ok (m, md)))
    (mex : Bool) (ld : Except String Model) :
    load_model ⟨mex, ld, env.metadataExists, env.metadataParse, env.modelPath⟩ s1
      = (s1, .ok (m, md)) :=
  load_model_stable h rfl rfl

/-- Claim C4 witness: after a concrete successful load, a repeat call in
which the model file is gone and the deserializer would fail still returns
the cached handle unchanged. -/
theorem C4_witness :
    load_model envGone { model := some modelNoProba, metadata := none }
      = ({ model := some modelNoProba, metadata := none },
         .ok (modelNoProba, none)) :=
  C4_idempotent_after_success envOkNoMeta s0 _ modelNoProba none rfl
    false (.error "gone")

/-- Claim C5 — counterexample.  The claim says every failing `load_model`
call leaves the cached state unchanged (still unloaded).  But when the
model deserializes and then the metadata parse raises, the call fails while
`_model` stays assigned: the state is no longer unloaded. -/
theorem C5_counterexample :
    load_model envBadMeta s0
      = ({ model := some modelNoProba, metadata := none },
         .error (.exc "bad json")) ∧
    ({ model := some modelNoProba, metadata := none } : GState).model
      ≠ none :=
  ⟨rfl, by simp⟩

/-- Claim C5 (amended): a failing `load_model` call that did not get as far
as a successful model deserialization — the artifact file is absent, or
`joblib.load` raises — leaves the state unchanged, so the failure is not
cached and the next call retries from scratch.  (A metadata-parse failure
after a successful model deserialization instead caches the model handle;
see the source's metadata phase.) -/
theorem C5_unloaded_on_model_failure (env : Env) (s : GState)
    (hs : s.model = none) :
    (env.modelExists = false →
      load_model env s
        = (s, .error (.fileNotFound ("Model not found at " ++ env.modelPath)))) ∧
    (∀ e, env.modelExists = true → env.modelLoad = .error e →
      load_model env s = (s, .error (.exc e))) := by
  constructor
  · intro hex
    simp [load_model, hs, hex]
  · intro e hex hl
    simp [load_model, hs, hex, hl]

/-- Claim C5 witness: concrete missing-file and failing-deserialization
calls, both leaving the fresh state unchanged. -/
theorem C5_witness :
    load_model envAbsent s0
      = (s0, .error (.fileNotFound ("Model not found at " ++ "P"))) ∧
    load_model envCorrupt s0 = (s0, .error (.exc "boom")) :=
  ⟨(C5_unloaded_on_model_failure envAbsent s0 rfl).1 rfl,
   (C5_unloaded_on_model_failure envCorrupt s0 rfl).2 "boom" rfl rfl⟩

lemma get?_map_list {α β : Type} (f : α → β) :
    ∀ (l : List α) (i : Nat), (l.map f).get? i = (l.get? i).map f
  | [], _ => rfl
  | _ :: _, 0 => rfl
  | _ :: t, (i + 1) => get?_map_list f t i

/-- Claim C3: in every successful prediction, if the artifact exposes
`predict_proba` then record i's confidence is present and equals the
maximum of that record's predicted label distribution (and, when that
distribution is a nonempty list of probabilities in [0,1], the confidence
lies in [0,1] and is the greatest element of the distribution); if the
artifact does not expose `predict_proba`, every confidence is absent
(`none`), never `some 0`. -/
theorem C3_confidence (env : Env) (movies : List MovieFeatures)
    (s s1 : GState) (m : Model) (md : Option Metadata)
    (hload : load_model env s = (s1, .ok (m, md)))
    (hne : movies ≠ []) (hexc : m.exc movies = none) :
    ∃ resp, predictEndpoint env movies s = (s1, .ok resp) ∧
      ∀ i mv r, movies.get? i = some mv →
        resp.predictions.get? i = some r →
        (m.hasProba = false → r.confidence = none) ∧
        (m.hasProba = true →
          r.confidence = some (listMax (m.probaRow mv)) ∧
          (m.probaRow mv ≠ [] →
            (∀ p ∈ m.probaRow mv, 0 ≤ p ∧ p ≤ 1) →
            ∃ c, r.confidence = some c ∧ 0 ≤ c ∧ c ≤ 1 ∧
              c ∈ m.probaRow mv ∧ ∀ p ∈ m.probaRow mv, p ≤ c)) := by
  refine ⟨_, predictEndpoint_success hload hne hexc, ?_⟩
  intro i mv r hmv hr
  rw [get?_map_list, hmv] at hr
  injection hr with hr
  have hrc : r.confidence
      = (if m.hasProba then some (listMax (m.probaRow mv)) else none) := by
    rw [← hr]
  constructor
  · intro hp
    rw [hrc, hp]
    simp
  · intro hp
    have hcc : r.confidence = some (listMax (m.probaRow mv)) := by
      rw [hrc, hp]
      simp
    refine ⟨hcc, ?_⟩
    intro hrow hbounds
    refine ⟨listMax (m.probaRow mv), hcc, ?_, ?_, listMax_mem hrow, ?_⟩
    · exact (hbounds _ (listMax_mem hrow)).1
    · exact (hbounds _ (listMax_mem hrow)).2
    · intro p hpmem
      exact le_listMax hpmem

/-- Claim C3 witness: a model exposing `predict_proba` with distribution
[0.09, 0.91] yields confidence 0.91 = the distribution's maximum, inside
[0,1]; instantiating the same theorem with a probability-free model is done
through the `hasProba = false` conjunct. -/
theorem C3_witness :
    ∃ resp, predictEndpoint envOkProba [mv0] s0
      = ({ model := some modelProba, metadata := none }, .ok resp) ∧
      ∀ i mv r, [mv0].get? i = some mv →
        resp.predictions.get? i = some r →
        (modelProba.hasProba = false → r.confidence = none) ∧
        (modelProba.hasProba = true →
          r.confidence = some (listMax (modelProba.probaRow mv)) ∧
          (modelProba.probaRow mv ≠ [] →
            (∀ p ∈ modelProba.probaRow mv, 0 ≤ p ∧ p ≤ 1) →
            ∃ c, r.confidence = some c ∧ 0 ≤ c ∧ c ≤ 1 ∧
              c ∈ modelProba.probaRow mv ∧
              ∀ p ∈ modelProba.probaRow mv, p ≤ c)) :=
  C3_confidence envOkProba [mv0] s0 _ modelProba none rfl
    (List.cons_ne_nil mv0 []) rfl

/-- Claim C6: in every successful `predict` response, `model_name` is the
metadata document's `model_name` field when that field is present, and
"unknown" when no metadata document was loaded; `model_metrics` is the
metadata's `metrics` map when present, and the empty map when no metadata
was loaded. -/
theorem C6_metadata_fields (env : Env) (movies : List MovieFeatures)
    (s s1 : GState) (m : Model) (md : Option Metadata)
    (hload : load_model env s = (s1, .ok (m, md)))
    (hne : movies ≠ []) (hexc : m.exc movies = none) :
    ∃ resp, predictEndpoint env movies s = (s1, .ok resp) ∧
      (md = none → resp.model_name = "unknown" ∧ resp.model_metrics = []) ∧
      (∀ d nm, md = some d → d.model_name = some nm →
        resp.model_name = nm) ∧
      (∀ d ms, md = some d → d.metrics = some ms →
        resp.model_metrics = ms) := by
  refine ⟨_, predictEndpoint_success hload hne hexc, ?_, ?_, ?_⟩
  · rintro rfl
    exact ⟨rfl, rfl⟩
  · rintro d nm rfl hnm
    simp [responseModelName, Metadata.truthy, Metadata.getName, hnm]
  · rintro d ms rfl hms
    simp [responseModelMetrics, Metadata.truthy, Metadata.getMetrics, hms]

/-- Claim C6 witness: the spec's instance.  Metadata with name "rf_v2" and
metrics f1 = 0.82 yields `model_name = "rf_v2"` and those metrics; absent
metadata yields "unknown" and the empty map. -/
theorem C6_witness :
    (∃ resp, predictEndpoint envOkRf [mv0] s0
        = ({ model := some modelProba, metadata := some mdRf }, .ok resp) ∧
      resp.model_name = "rf_v2" ∧ resp.model_metrics = [("f1", 82 / 100)]) ∧
    (∃ resp, predictEndpoint envOkProba [mv0] s0
        = ({ model := some modelProba, metadata := none }, .ok resp) ∧
      resp.model_name = "unknown" ∧ resp.model_metrics = []) := by
  constructor
  · obtain ⟨resp, h1, _, h3, h4⟩ :=
      C6_metadata_fields envOkRf [mv0] s0 _ modelProba (some mdRf) rfl
        (List.cons_ne_nil mv0 []) rfl
    exact ⟨resp, h1, h3 mdRf "rf_v2" rfl rfl, h4 mdRf _ rfl rfl⟩
  · obtain ⟨resp, h1, h2, _, _⟩ :=
      C6_metadata_fields envOkProba [mv0] s0 _ modelProba none rfl
        (List.cons_ne_nil mv0 []) rfl
    exact ⟨resp, h1, (h2 rfl).1, (h2 rfl).2⟩

/-- Claim C7: the failure statuses of `predict` are exactly 503 when the
artifact file is absent (`FileNotFoundError`), 500 when loading raises any
other exception, 400 when the (post-load) movies list is empty, 500 when
inference raises; and when nothing fails the endpoint returns a 200
response — every outcome is one of these, no failure escapes uncaught. -/
theorem C7_status_codes (env : Env) (movies : List MovieFeatures)
    (s : GState) :
    (∀ s1 msg, load_model env s = (s1, .error (.fileNotFound msg)) →
      predictEndpoint env movies s = (s1, .err 503 msg)) ∧
    (∀ s1 msg, load_model env s = (s1, .error (.exc msg)) →
      predictEndpoint env movies s
        = (s1, .err 500 ("Error loading model: " ++ msg))) ∧
    (∀ s1 m md, load_model env s = (s1, .ok (m, md)) → movies = [] →
      predictEndpoint env movies s
        = (s1, .err 400 "\x27movies\x27 list cannot be empty")) ∧
    (∀ s1 m md e, load_model env s = (s1, .ok (m, md)) → movies ≠ [] →
      m.exc movies = some e →
      predictEndpoint env movies s
        = (s1, .err 500 ("Inference error: " ++ e))) ∧
    (∀ s1 m md, load_model env s = (s1, .ok (m, md)) → movies ≠ [] →
      m.exc movies = none →
      ∃ resp, predictEndpoint env movies s = (s1, .ok resp)) := by
  refine ⟨?_, ?_, ?_, ?_, ?_⟩
  · intro s1 msg h
    exact predictEndpoint_load_fnf h
  · intro s1 msg h
    exact predictEndpoint_load_exc h
  · rintro s1 m md h rfl
    exact predictEndpoint_empty h
  · intro s1 m md e h hne hexc
    exact predictEndpoint_infer_exc h hne hexc
  · intro s1 m md h hne hexc
    exact ⟨_, predictEndpoint_success h hne hexc⟩

/-- Claim C7 witness: the 503 case at a concrete input — artifact file
absent, fresh state, non-empty batch. -/
theorem C7_witness :
    predictEndpoint envNoFile [mv0] s0
      = (s0, .err 503 ("Model not found at " ++ "P")) :=
  (C7_status_codes envNoFile [mv0] s0).1 s0 ("Model not found at " ++ "P") rfl

/-- Claim C8 — counterexample.  The claim says `/model-info` returns the
metadata document verbatim whenever a metadata document is present.  But a
present, well-formed document that parses to the empty dict is falsy in
Python, so the endpoint returns the no-metadata message instead of the
document. -/
theorem C8_counterexample :
    model_info envOkEmptyMeta s0
      = ({ model := some modelNoProba, metadata := some mdEmpty },
         .noMetadata) ∧
    (InfoResp.noMetadata ≠ .doc mdEmpty) :=
  ⟨rfl, by decide⟩

/-- Claim C8 (amended): `/model-info` forces a load; any load failure
surfaces as a 500 with the exception's message; a loaded metadata document
is returned verbatim when it is truthy (nonempty), and the no-metadata
message is returned when no metadata was loaded or the loaded document is
falsy (empty). -/
theorem C8_model_info (env : Env) (s : GState) :
    (∀ s1 e, load_model env s = (s1, .error e) →
      model_info env s = (s1, .err 500 e.str)) ∧
    (∀ s1 m d, load_model env s = (s1, .ok (m, some d)) →
      d.truthy = true → model_info env s = (s1, .doc d)) ∧
    (∀ s1 m, load_model env s = (s1, .ok (m, none)) →
      model_info env s = (s1, .noMetadata)) ∧
    (∀ s1 m d, load_model env s = (s1, .ok (m, some d)) →
      d.truthy = false → model_info env s = (s1, .noMetadata)) := by
  refine ⟨?_, ?_, ?_, ?_⟩
  · intro s1 e h
    simp [model_info, h]
  · intro s1 m d h ht
    simp [model_info, h, ht]
  · intro s1 m h
    simp [model_info, h]
  · intro s1 m d h ht
    simp [model_info, h, ht]

/-- Claim C8 witness: a truthy metadata document is returned verbatim; with
no metadata file the message is returned; a failing load gives 500. -/
theorem C8_witness :
    model_info envOkRf s0
      = ({ model := some modelProba, metadata := some mdRf }, .doc mdRf) ∧
    model_info envOkProba s0
      = ({ model := some modelProba, metadata := none }, .noMetadata) ∧
    model_info envNoFile s0
      = (s0, .err 500 ("Model not found at " ++ "P")) :=
  ⟨(C8_model_info envOkRf s0).2.1 _ modelProba mdRf rfl rfl,
   (C8_model_info envOkProba s0).2.2.1 _ modelProba rfl,
   (C8_model_info envNoFile s0).1 s0 (.fileNotFound ("Model not found at " ++ "P")) rfl⟩

/-- Claim C9: `/health` never triggers a load — the cached state is
returned unchanged in every cache state — and it reports status "healthy"
exactly when the model file exists and "model_missing" otherwise, together
with the model path and the two existence flags, without raising (the
embedding is total). -/
theorem C9_health_no_load (env : Env) (s : GState) :
    (health env s).1 = s ∧
    (health env s).2.status
      = (if env.modelExists then "healthy" else "model_missing") ∧
    (health env s).2.model_path = env.modelPath ∧
    (health env s).2.model_exists = env.modelExists ∧
    (health env s).2.metadata_exists = env.metadataExists :=
  ⟨rfl, rfl, rfl, rfl, rfl⟩

/-- Claim C10: when the model deserializes but parsing the present metadata
document raises, `load_model` raises that error while the model handle is
now cached; every subsequent call returns the same error whatever the model
file and deserializer would do (model deserialization is skipped), and if
only the metadata parse is repaired the next call succeeds without touching
the model file — the load is not atomic across the two documents. -/
theorem C10_metadata_failure_caches_model (env : Env) (m : Model) (e : String)
    (h1 : env.modelExists = true) (h2 : env.modelLoad = .ok m)
    (h3 : env.metadataExists = true) (h4 : env.metadataParse = .error e) :
    load_model env s0
      = ({ model := some m, metadata := none }, .error (.exc e)) ∧
    (∀ mex ld,
      load_model ⟨mex, ld, true, .error e, env.modelPath⟩
          { model := some m, metadata := none }
        = ({ model := some m, metadata := none }, .error (.exc e))) ∧
    (∀ mex ld md,
      load_model ⟨mex, ld, true, .ok md, env.modelPath⟩
          { model := some m, metadata := none }
        = ({ model := some m, metadata := md }, .ok (m, md))) := by
  refine ⟨?_, ?_, ?_⟩
  · simp [load_model, s0, h1, h2, loadMetaPhase, h3, h4]
  · intro mex ld
    simp [load_model, loadMetaPhase]
  · intro mex ld md
    simp [load_model, loadMetaPhase]

/-- Claim C10 witness: concrete failing-metadata load caching the model,
the repeat call still failing with the model file gone, and the
metadata-only repair succeeding without the model file. -/
theorem C10_witness :
    load_model envBadMeta s0
      = ({ model := some modelNoProba, metadata := none },
         .error (.exc "bad json")) ∧
    load_model envGoneBadMeta { model := some modelNoProba, metadata := none }
      = ({ model := some modelNoProba, metadata := none },
         .error (.exc "bad json")) ∧
    load_model envGoneGoodMeta { model := some modelNoProba, metadata := none }
      = ({ model := some modelNoProba, metadata := some mdRf },
         .ok (modelNoProba, some mdRf)) := by
  obtain ⟨a, b, c⟩ :=
    C10_metadata_failure_caches_model envBadMeta modelNoProba "bad json"
      rfl rfl rfl rfl
  exact ⟨a, b false (.error "gone"), c false (.error "gone") (some mdRf)⟩
